import Mathlib

/-!
Verification development for the recipe-formatter repository.

The definitions below are a shallow embedding of the Python sources:
`src/main.py` (the legacy top-level script) and
`src/src/recipe_formatter/main.py` together with its model handlers.
Python dicts holding a recipe are embedded as the `Recipe` structure;
optional fields that Python represents as missing keys or `None` are
embedded by their Python-falsy defaults (`""` for strings, `[]` for
lists), which is faithful because every use in the sources tests these
fields only for truthiness (`if description:`, `if reviews:`, ...).
-/

namespace RecipeFormatter

/-- One ingredient group of the recipe dict (`{"title": ..., "ingredients": [...]}`). -/
structure IngredientGroup where
  title : String
  ingredients : List String
deriving Repr, DecidableEq

/-- One instruction group of the recipe dict (`{"title": ..., "instructions": [...]}`). -/
structure InstructionGroup where
  title : String
  instructions : List String
deriving Repr, DecidableEq

/-- The recipe dict produced and mutated by `main` in `src/main.py`.
`scale` is only ever copied verbatim from the parsed `--scale` flag
(no arithmetic is performed on it anywhere in the program), so a
rational stands in for the Python float. -/
structure Recipe where
  title : String
  description : String
  ingredient_groups : List IngredientGroup
  instruction_groups : List InstructionGroup
  notes : String
  reviews : List String
  source : String
  scale : Rat
deriving Repr, DecidableEq

/-- Embeds `src/main.py` lines 739-740: `if len(recipe["ingredient_groups"]) == 1:
recipe["ingredient_groups"][0]["title"] = ""`. -/
def clear_singleton_title_ig (gs : List IngredientGroup) : List IngredientGroup :=
  match gs with
  | [g] => [{ g with title := "" }]
  | _ => gs

/-- Embeds `src/main.py` lines 742-743: same for `instruction_groups`. -/
def clear_singleton_title_sg (gs : List InstructionGroup) : List InstructionGroup :=
  match gs with
  | [g] => [{ g with title := "" }]
  | _ => gs

/-- The post-pipeline normalization transform of `src/main.py`
lines 739-743: clear the title of a singleton ingredient group and of a
singleton instruction group.  (These lines are the whole transform: the
script contains no removal of groups.) -/
def normalize_groups (r : Recipe) : Recipe :=
  { r with
    ingredient_groups := clear_singleton_title_ig r.ingredient_groups
    instruction_groups := clear_singleton_title_sg r.instruction_groups }

/-- Embeds `src/main.py` lines 739-746: the whole post-pipeline finalization,
normalization followed by `recipe["source"] = args.url` and
`recipe["scale"] = args.scale`. -/
def finalize (url : String) (scale : Rat) (r : Recipe) : Recipe :=
  { normalize_groups r with source := url, scale := scale }

/-- Concrete recipe whose first ingredient group and first instruction
group have empty item lists; used to exercise the finalization. -/
def c2recipe : Recipe :=
  { title := "T"
    description := ""
    ingredient_groups := [⟨"For the Cake", []⟩, ⟨"For the Frosting", ["1 c sugar"]⟩]
    instruction_groups := [⟨"Making the Cake", []⟩, ⟨"Making the Frosting", ["Mix."]⟩]
    notes := ""
    reviews := []
    source := ""
    scale := 1 }

lemma clear_singleton_title_ig_map_ingredients (gs : List IngredientGroup) :
    (clear_singleton_title_ig gs).map IngredientGroup.ingredients =
      gs.map IngredientGroup.ingredients := by
  match gs with
  | [] => rfl
  | [g] => rfl
  | g :: h :: t => rfl

lemma clear_singleton_title_sg_map_instructions (gs : List InstructionGroup) :
    (clear_singleton_title_sg gs).map InstructionGroup.instructions =
      gs.map InstructionGroup.instructions := by
  match gs with
  | [] => rfl
  | [g] => rfl
  | g :: h :: t => rfl

lemma clear_singleton_title_ig_idem (gs : List IngredientGroup) :
    clear_singleton_title_ig (clear_singleton_title_ig gs) = clear_singleton_title_ig gs := by
  match gs with
  | [] => rfl
  | [g] => rfl
  | g :: h :: t => rfl

lemma clear_singleton_title_sg_idem (gs : List InstructionGroup) :
    clear_singleton_title_sg (clear_singleton_title_sg gs) = clear_singleton_title_sg gs := by
  match gs with
  | [] => rfl
  | [g] => rfl
  | g :: h :: t => rfl

/-- Claim C2 as stated is false on the code: the finalization step of
`src/main.py` (lines 739-746) does not remove groups with empty item
lists.  Concretely, `c2recipe` has an ingredient group and an
instruction group with empty item lists and both survive finalization
verbatim. -/
theorem c2_counterexample :
    ((finalize "http://u" 1 c2recipe).ingredient_groups.any
        (fun g => g.ingredients.isEmpty) = true) ∧
      ((finalize "http://u" 1 c2recipe).instruction_groups.any
        (fun g => g.instructions.isEmpty) = true) ∧
      (finalize "http://u" 1 c2recipe).ingredient_groups = c2recipe.ingredient_groups ∧
      (finalize "http://u" 1 c2recipe).instruction_groups = c2recipe.instruction_groups := by
  refine ⟨rfl, rfl, rfl, rfl⟩

/-- Amended C2: the post-pipeline finalization removes no groups at all —
each group's item list survives in place (only a singleton group's title
may be cleared); in particular groups with empty item lists are NOT
removed before output. -/
theorem c2_no_group_removal (url : String) (scale : Rat) (r : Recipe) :
    (finalize url scale r).ingredient_groups.map IngredientGroup.ingredients =
        r.ingredient_groups.map IngredientGroup.ingredients ∧
      (finalize url scale r).instruction_groups.map InstructionGroup.instructions =
        r.instruction_groups.map InstructionGroup.instructions ∧
      (finalize url scale r).ingredient_groups.length = r.ingredient_groups.length ∧
      (finalize url scale r).instruction_groups.length = r.instruction_groups.length := by
  refine ⟨clear_singleton_title_ig_map_ingredients _,
    clear_singleton_title_sg_map_instructions _, ?_, ?_⟩
  · have h := congrArg List.length (clear_singleton_title_ig_map_ingredients r.ingredient_groups)
    simpa using h
  · have h := congrArg List.length (clear_singleton_title_sg_map_instructions r.instruction_groups)
    simpa using h

/-- Claim C4: the post-pipeline normalization transform
(`src/main.py` lines 739-743) is idempotent. -/
theorem c4_normalize_idempotent (r : Recipe) :
    normalize_groups (normalize_groups r) = normalize_groups r := by
  unfold normalize_groups
  simp [clear_singleton_title_ig_idem, clear_singleton_title_sg_idem]

/-! ## The retry loop of `run_pipeline_step` (`src/main.py` lines 284-309)

The external service call
(`client.chat.completions.create(...)` followed by
`chat_completion.choices[0].message.content`) is embedded as an oracle
mapping the 1-based attempt number to either the returned content string
or the exception raised by that attempt; the trailing
`return json.loads(recipe)` (outside the `try`) is the `parse`
parameter, whose failure is fatal, not retried.  Exceptions are
embedded as `Except` errors carrying a `String` message. -/

abbrev Err := String

/-- The `while attempts < 3` loop of `run_pipeline_step`, from a given
`attempts`/`sleeps` state.  On each iteration the attempt counter is
incremented, the service is called; success breaks out of the loop with
the content, failure sleeps 10 seconds (counted in the second
component) and then either re-raises (`if attempts == 3`) or retries.
The `none` result corresponds to the loop guard failing, which is
unreachable from the entry state `attempts = 0`. -/
def run_step_from (oracle : Nat → Except Err String) (attempts sleeps : Nat) :
    Option (Except Err String × Nat × Nat) :=
  if _h : attempts < 3 then
    match oracle (attempts + 1) with
    | .ok content => some (.ok content, attempts + 1, sleeps)
    | .error e =>
      if attempts + 1 = 3 then some (.error e, attempts + 1, sleeps + 1)
      else run_step_from oracle (attempts + 1) (sleeps + 1)
  else none
termination_by 3 - attempts

/-- Embeds `run_pipeline_step` of `src/main.py`: the retry loop started at
`attempts = 0`, followed by `json.loads` on the returned content.
The result carries the final outcome, the number of attempts consumed
and the number of 10-second delays slept. -/
def run_pipeline_step {ρ : Type} (oracle : Nat → Except Err String)
    (parse : String → Except Err ρ) : Option (Except Err ρ × Nat × Nat) :=
  (run_step_from oracle 0 0).map
    (fun out => (out.1.bind parse, out.2.1, out.2.2))

lemma run_step_from_fail_fail_ok (oracle : Nat → Except Err String)
    (s : String) (e1 e2 : Err) (h1 : oracle 1 = .error e1) (h2 : oracle 2 = .error e2)
    (h3 : oracle 3 = .ok s) :
    run_step_from oracle 0 0 = some (.ok s, 3, 2) := by
  rw [run_step_from]
  simp only [h1]
  rw [run_step_from]
  simp only [h2]
  rw [run_step_from]
  simp only [h3]
  norm_num

lemma run_step_from_all_fail (oracle : Nat → Except Err String) (errs : Nat → Err)
    (h : ∀ n, oracle n = .error (errs n)) :
    run_step_from oracle 0 0 = some (.error (errs 3), 3, 3) := by
  rw [run_step_from]
  simp only [h 1]
  rw [run_step_from]
  simp only [h 2]
  rw [run_step_from]
  simp only [h 3]
  norm_num

/-! ## The pipeline driver `main` (`src/main.py` lines 658-748)

`main` runs a straight line of conditional `run_pipeline_step` calls;
a Python exception raised by any call (after its retries are exhausted)
propagates and aborts everything after it, including the final
`write_output`.  Each stage invocation is embedded as a function from
the current recipe to an `Except` outcome — the already-retried result
of `run_pipeline_step` for that stage — collected in `Oracles`.
`runStages` executes the conditional schedule sequentially, recording
which stage invocations actually ran. -/

/-- Python truthiness of an optional string (`None` and `""` are falsy). -/
def py_truthy (o : Option String) : Bool :=
  match o with
  | some s => !s.isEmpty
  | none => false

/-- The stage invocations of `main`, in source order. -/
inductive StageId where
  | toJson
  | updIngredients
  | updInstructions
  | groupStep
  | titleNotes
  | scaleStep
  | reviewsStep
  | reviseStep
  | finalStep
deriving Repr, DecidableEq

/-- The CLI arguments of `src/main.py` consumed by `main` after parsing
(`--scale` defaults to 1.0 and is copied verbatim, so a rational stands
in for the float). -/
structure MainArgs where
  url : String
  output : Option String
  format : Option String
  normalize : Bool
  tips : Bool
  group : Bool
  scale : Rat
  revise : Option String
deriving Repr, DecidableEq

/-- Outcomes of the external-service stage invocations, one per call
site in `main`.  Stages whose responses are merged field-wise
(`update_ingredients`, `update_instructions`, the reviews summary)
yield just the merged field, as `main` reads only that key from the
parsed response. -/
structure Oracles where
  toJson : Except Err Recipe
  updIngredients : Recipe → Except Err (List IngredientGroup)
  updInstructions : Recipe → Except Err (List InstructionGroup)
  groupStep : Recipe → Except Err Recipe
  titleNotes : Recipe → Except Err Recipe
  scaleStep : Recipe → Except Err Recipe
  reviewsStep : Recipe → Except Err (List String)
  reviseStep : Recipe → Except Err Recipe
  finalStep : Recipe → Except Err Recipe

/-- The conditional schedule of stage invocations built by `main`
(`src/main.py` lines 686-737), each paired with its merge into the
current recipe:
`recipe = run_pipeline_step(...)` for whole-recipe stages,
`recipe["ingredient_groups"] = ...["ingredient_groups"]` and the like
for field-wise stages. -/
def stepList (args : MainArgs) (reviews : List String) (o : Oracles) :
    List (StageId × (Recipe → Except Err Recipe)) :=
  [(.toJson, fun _ => o.toJson)]
    ++ (if args.normalize then
          [(.updIngredients, fun r =>
              (o.updIngredients r).map (fun gs => { r with ingredient_groups := gs })),
           (.updInstructions, fun r =>
              (o.updInstructions r).map (fun gs => { r with instruction_groups := gs }))]
        else [])
    ++ (if args.group then [(.groupStep, o.groupStep)] else [])
    ++ (if args.normalize then [(.titleNotes, o.titleNotes)] else [])
    ++ (if args.scale ≠ 1 then [(.scaleStep, o.scaleStep)] else [])
    ++ (if args.tips ∧ reviews ≠ [] then
          [(.reviewsStep, fun r =>
              (o.reviewsStep r).map (fun ps => { r with reviews := ps }))]
        else [])
    ++ (if py_truthy args.revise then [(.reviseStep, o.reviseStep)] else [])
    ++ (if args.normalize then [(.finalStep, o.finalStep)] else [])

/-- Sequential execution with exception propagation: a stage runs only
if everything before it succeeded; the returned list records the stage
invocations that actually ran, in order. -/
def runStages (steps : List (StageId × (Recipe → Except Err Recipe)))
    (init : Except Err Recipe) : Except Err Recipe × List StageId :=
  match steps with
  | [] => (init, [])
  | (sid, f) :: rest =>
    match init with
    | .error e => (.error e, [])
    | .ok r =>
      match f r with
      | .ok r2 => ((runStages rest (.ok r2)).1, sid :: (runStages rest (.ok r2)).2)
      | .error e => (.error e, [sid])

/-- Placeholder initial recipe: the first stage (`toJson`) ignores its
input, building the recipe from the fetched page text instead. -/
def emptyRecipe : Recipe :=
  { title := "", description := "", ingredient_groups := [], instruction_groups := []
    notes := "", reviews := [], source := "", scale := 1 }

/-- The pipeline portion of `main`: run the scheduled stages and, on
success, apply the finalization of lines 739-746.  The second component
is the trace of stage invocations that ran. -/
def main_run (args : MainArgs) (reviews : List String) (o : Oracles) :
    Except Err Recipe × List StageId :=
  ((runStages (stepList args reviews o) (.ok emptyRecipe)).1.map
      (finalize args.url args.scale),
    (runStages (stepList args reviews o) (.ok emptyRecipe)).2)

/-- The stage invocations `main` would perform when every stage
succeeds. -/
def schedule (args : MainArgs) (reviews : List String) (o : Oracles) : List StageId :=
  (stepList args reviews o).map Prod.fst

lemma runStages_trace_take (steps : List (StageId × (Recipe → Except Err Recipe))) :
    ∀ init, ∃ k, (runStages steps init).2 = (steps.map Prod.fst).take k := by
  induction steps with
  | nil =>
    intro init
    exact ⟨0, rfl⟩
  | cons p rest ih =>
    intro init
    obtain ⟨sid, f⟩ := p
    cases init with
    | error e => exact ⟨0, rfl⟩
    | ok r =>
      cases hf : f r with
      | ok r2 =>
        obtain ⟨k, hk⟩ := ih (.ok r2)
        refine ⟨k + 1, ?_⟩
        simp [runStages, hf, hk]
      | error e => exact ⟨1, by simp [runStages, hf]⟩

lemma runStages_trace_prefix (steps : List (StageId × (Recipe → Except Err Recipe)))
    (init : Except Err Recipe) :
    (runStages steps init).2 <+: steps.map Prod.fst := by
  obtain ⟨k, hk⟩ := runStages_trace_take steps init
  rw [hk]
  exact List.take_prefix k (steps.map Prod.fst)

lemma runStages_ok_trace (steps : List (StageId × (Recipe → Except Err Recipe))) :
    ∀ init r, (runStages steps init).1 = .ok r →
      (runStages steps init).2 = steps.map Prod.fst := by
  induction steps with
  | nil =>
    intro init r _
    rfl
  | cons p rest ih =>
    intro init r hok
    obtain ⟨sid, f⟩ := p
    cases init with
    | error e => simp [runStages] at hok
    | ok r0 =>
      cases hf : f r0 with
      | ok r2 =>
        simp only [runStages, hf] at hok ⊢
        exact congrArg (sid :: ·) (ih (.ok r2) r hok)
      | error e => simp [runStages, hf] at hok

/-! ## Rendering (`src/main.py` lines 386-642) -/

/-- The character-substitution table of `escape_latex`
(`src/main.py` lines 386-401); characters outside the table pass
through unchanged. -/
def escape_char (c : Char) : String :=
  if c = '&' then "\\&"
  else if c = '%' then "\\%"
  else if c = '$' then "\\$"
  else if c = '#' then "\\#"
  else if c = '_' then "\\_"
  else if c = Char.ofNat 123 then "\\\x7b"
  else if c = Char.ofNat 125 then "\\\x7d"
  else if c = '~' then "\\textasciitilde\x7b\x7d"
  else if c = '^' then "\\^\x7b\x7d"
  else if c = '\\' then "\\textbackslash\x7b\x7d"
  else if c = '<' then "\\textless\x7b\x7d"
  else if c = '>' then "\\textgreater\x7b\x7d"
  else String.singleton c

/-- Embeds `escape_latex` (`src/main.py` line 401):
`"".join(mapping.get(c, c) for c in text)`. -/
def escape_latex (s : String) : String :=
  String.join (s.toList.map escape_char)

/-- Embeds `fix_fractions` (`src/main.py` lines 404-405):
`re.sub(r"(\d)/(\d)", r"\1⁄\2", text)`.  `re.sub` scans left to right
and resumes after each (non-overlapping) match; `Char.isDigit` stands
in for `\d` (the sources only ever feed ASCII digits). -/
def fix_fractions_list (l : List Char) : List Char :=
  match l with
  | [] => []
  | [a] => [a]
  | [a, b] => [a, b]
  | a :: b :: c :: rest =>
    if a.isDigit ∧ b = '/' ∧ c.isDigit then
      a :: '⁄' :: c :: fix_fractions_list rest
    else
      a :: fix_fractions_list (b :: c :: rest)

/-- String-level `fix_fractions`. -/
def fix_fractions (s : String) : String :=
  String.mk (fix_fractions_list s.toList)

/-- Embeds `source_latex` (`src/main.py` line 503). -/
def fancy_foot (source : String) : String :=
  if !source.isEmpty then
    "\\fancyfoot[C]\x7b\\footnotesize " ++ escape_latex source ++ "\x7d"
  else ""

/-- The initial `latex` list of `json_to_latex`
(`src/main.py` lines 505-528). -/
def latex_preamble (r : Recipe) : List String :=
  ["\\documentclass[10pt]\x7barticle\x7d",
   "\\usepackage\x7bfontspec\x7d",
   "\\usepackage\x7bgeometry\x7d",
   "\\usepackage\x7benumitem\x7d",
   "\\usepackage\x7bgraphicx\x7d",
   "\\usepackage\x7bparacol\x7d",
   "\\usepackage\x7bmicrotype\x7d",
   "\\usepackage\x7bparskip\x7d",
   "\\usepackage\x7bfancyhdr\x7d",
   "\\geometry\x7bletterpaper, margin=0.75in\x7d",
   "\\setmainfont\x7bSource Serif 4\x7d",
   "\\newfontfamily\\headingfont\x7bSource Serif 4\x7d",
   "\\pagestyle\x7bfancy\x7d",
   "\\fancyhf\x7b\x7d",
   "\\renewcommand\x7b\\headrulewidth\x7d\x7b0pt\x7d",
   fancy_foot r.source,
   "\\begin\x7bdocument\x7d",
   "\\setlist[enumerate,1]\x7bitemsep=0em\x7d",
   "\\begin\x7bcenter\x7d",
   "\x7b\\huge \\bfseries \\headingfont " ++ escape_latex r.title ++ "\x7d",
   "\\end\x7bcenter\x7d",
   "\\vspace\x7b1em\x7d"]

/-- The lines appended for one ingredient group
(`src/main.py` lines 539-545). -/
def ingredient_group_lines (g : IngredientGroup) : List String :=
  (if !g.title.isEmpty then ["\\subsection*\x7b" ++ escape_latex g.title ++ "\x7d"] else [])
    ++ ["\\begin\x7bitemize\x7d[leftmargin=*]"]
    ++ g.ingredients.map (fun i => "\\item " ++ escape_latex i)
    ++ ["\\end\x7bitemize\x7d"]

/-- The lines appended for one instruction group
(`src/main.py` lines 550-556). -/
def instruction_group_lines (g : InstructionGroup) : List String :=
  (if !g.title.isEmpty then ["\\subsection*\x7b" ++ escape_latex g.title ++ "\x7d"] else [])
    ++ ["\\begin\x7benumerate\x7d[leftmargin=*]"]
    ++ g.instructions.map (fun i => "\\item " ++ escape_latex i)
    ++ ["\\end\x7benumerate\x7d"]

/-- The full `latex` line list built by `json_to_latex`
(`src/main.py` lines 494-570). -/
def json_to_latex_lines (r : Recipe) : List String :=
  latex_preamble r
    ++ (if !r.description.isEmpty then ["\\noindent " ++ escape_latex r.description] else [])
    ++ ["\\vspace\x7b1em\x7d",
        "\\columnratio\x7b0.35\x7d",
        "\\begin\x7bparacol\x7d\x7b2\x7d",
        "\\section*\x7bIngredients\x7d",
        "\\raggedright"]
    ++ r.ingredient_groups.flatMap ingredient_group_lines
    ++ ["\\switchcolumn",
        "\\section*\x7bInstructions\x7d"]
    ++ r.instruction_groups.flatMap instruction_group_lines
    ++ ["\\end\x7bparacol\x7d"]
    ++ (if !r.notes.isEmpty then ["\\section*\x7bNotes\x7d", escape_latex r.notes] else [])
    ++ (if !r.reviews.isEmpty then
          "\\section*\x7bTips\x7d" :: r.reviews.flatMap (fun v => [escape_latex v, "\\par"])
        else [])
    ++ ["\\end\x7bdocument\x7d"]

/-- Embeds `json_to_latex` (`src/main.py` line 572): `"\n".join(latex)`. -/
def json_to_latex (r : Recipe) : String :=
  String.intercalate "\n" (json_to_latex_lines r)

/-- Markdown for one ingredient group (`src/main.py` lines 590-595). -/
def md_ingredient_group (g : IngredientGroup) : String :=
  (if !g.title.isEmpty then "### " ++ g.title ++ "\n\n" else "")
    ++ String.join (g.ingredients.map (fun i => "* " ++ i ++ "\n"))
    ++ "\n"

/-- Markdown for one instruction group (`src/main.py` lines 598-603). -/
def md_instruction_group (g : InstructionGroup) : String :=
  (if !g.title.isEmpty then "### " ++ g.title ++ "\n\n" else "")
    ++ String.join ((g.instructions.enumFrom 1).map
        (fun p => toString p.1 ++ ". " ++ p.2 ++ "\n"))
    ++ "\n"

/-- Embeds `recipe_to_markdown` (`src/main.py` lines 575-616).  When the
`reviews` field is a non-empty list, line 611 (`md += reviews`)
concatenates a `str` with a `list` and raises a `TypeError`, embedded
as the error case. -/
def recipe_to_markdown (r : Recipe) : Except Err String :=
  let md := "# " ++ r.title ++ "\n\n"
    ++ (if !r.description.isEmpty then r.description ++ "\n\n" else "")
    ++ "## Ingredients\n\n"
    ++ String.join (r.ingredient_groups.map md_ingredient_group)
    ++ "## Instructions\n\n"
    ++ String.join (r.instruction_groups.map md_instruction_group)
    ++ (if !r.notes.isEmpty then "## Notes\n\n" ++ r.notes else "")
  if !r.reviews.isEmpty then
    .error "TypeError: can only concatenate str (not list) to str"
  else
    .ok (md ++ (if !r.source.isEmpty then "Source: " ++ r.source else ""))

/-! ## Output-format resolution and `write_output` -/

/-- Index of the last occurrence of `c` in `l` (Python `str.rfind`,
with `none` for -1). -/
def rfind_idx (c : Char) (l : List Char) : Option Nat :=
  match l.reverse.findIdx? (fun x => x = c) with
  | none => none
  | some j => some (l.length - 1 - j)

/-- Embeds `os.path.splitext(p)[1]` (posixpath): the extension including its
dot — the part from the last dot onward, provided that dot lies after
the last `/` and the base name has a non-dot character before it. -/
def splitext_ext_full (p : String) : String :=
  let l := p.toList
  let sep := rfind_idx '/' l
  let dot := rfind_idx '.' l
  match dot with
  | none => ""
  | some d =>
    let start := match sep with | none => 0 | some si => si + 1
    let dotAfterSep := match sep with | none => true | some si => decide (si < d)
    if dotAfterSep && (List.range' start (d - start)).any (fun i => l.getD i '.' != '.') then
      String.mk (l.drop d)
    else ""

/-- Embeds `os.path.splitext(args.output)[1][1:]` (`src/main.py` line 622). -/
def write_output_ext (p : String) : String :=
  (splitext_ext_full p).drop 1

/-- Format resolution of the legacy `write_output`
(`src/main.py` lines 620-622): the `--format` flag if truthy, else the
output path's `splitext` extension; with no output path,
`os.path.splitext(None)` raises a `TypeError`. -/
def resolve_format_legacy (format output : Option String) : Except Err String :=
  if py_truthy format then .ok (format.getD "")
  else
    match output with
    | none => .error "TypeError: expected str, bytes or os.PathLike object, not NoneType"
    | some p => .ok (write_output_ext p)

/-- Python `str.split(sep)` on character lists for a non-empty
separator: split at every non-overlapping occurrence, scanning left to
right and keeping empty pieces (always at least one piece).  The fuel
argument only bounds the iteration count for structural recursion;
every step consumes at least one character, so fuel `l.length` is
always sufficient and never alters the result. -/
def split_fuel (sep : List Char) : Nat → List Char → List (List Char)
  | _, [] => [[]]
  | 0, l => [l]
  | fuel + 1, c :: t =>
    if sep ≠ [] ∧ sep.isPrefixOf (c :: t) then
      [] :: split_fuel sep fuel ((c :: t).drop sep.length)
    else
      match split_fuel sep fuel t with
      | [] => [[c]]
      | h :: rest => (c :: h) :: rest

/-- Python `str.split(sep)` on strings. -/
def py_split (s sep : String) : List String :=
  (split_fuel sep.toList s.toList.length s.toList).map String.mk

/-- Python `str.replace(pat, rep)` on character lists for a non-empty
pattern: replace every non-overlapping occurrence, scanning left to
right and resuming after each replacement.  Fuel as in `split_fuel`. -/
def replace_fuel (pat rep : List Char) : Nat → List Char → List Char
  | _, [] => []
  | 0, l => l
  | fuel + 1, c :: t =>
    if pat ≠ [] ∧ pat.isPrefixOf (c :: t) then
      rep ++ replace_fuel pat rep fuel ((c :: t).drop pat.length)
    else
      c :: replace_fuel pat rep fuel t

/-- Python `str.replace(pat, rep)` on strings. -/
def py_replace (s pat rep : String) : String :=
  String.mk (replace_fuel pat.toList rep.toList s.toList.length s.toList)

/-- Format resolution of `src/src/recipe_formatter/main.py`
lines 216-222: explicit flag wins; else inferred from the output path
(`output_path.split('.')[-1]`), rejected (`none`) when unsupported;
else `"json"` by default. -/
def resolve_format_rf (format output : Option String) : Option String :=
  match output, format with
  | none, none => some "json"
  | _, some f => some f
  | some p, none =>
    let ext := (py_split p ".").getLastD ""
    if ext ∈ ["md", "tex", "pdf", "json"] then some ext else none

/-- External collaborators used by `write_output`: `json.dumps`, the
`xelatex` invocation of `generate_pdf`, and `slugify`. -/
structure Ext where
  jsonDump : Recipe → String
  pdfBytes : String → String
  slug : String → String

/-- An observable write performed by `write_output`. -/
inductive OutputEvent where
  | file (path : String) (content : String)
  | stdout (content : String)
deriving Repr, DecidableEq

/-- The rendering dispatch of `write_output`
(`src/main.py` lines 624-631): `tex`, `json`, `pdf`, and markdown for
everything else. -/
def render_legacy (ext : Ext) (r : Recipe) (fmt : String) : Except Err String :=
  if fmt = "tex" then .ok (json_to_latex r)
  else if fmt = "json" then .ok (ext.jsonDump r)
  else if fmt = "pdf" then .ok (ext.pdfBytes (json_to_latex r))
  else recipe_to_markdown r

/-- Embeds `write_output` (`src/main.py` lines 619-642): resolve the format,
render, then write once — to `args.output` (with `\x7btitle\x7d`
replaced by the slug of the recipe title) when that is truthy,
otherwise to stdout.  Any raised `TypeError` propagates as an error and
nothing is written. -/
def write_output_ev (ext : Ext) (r : Recipe) (args : MainArgs) : Except Err OutputEvent := do
  let fmt ← resolve_format_legacy args.format args.output
  let content ← render_legacy ext r fmt
  match args.output with
  | some p =>
    if !p.isEmpty then
      .ok (.file (py_replace p "\x7btitle\x7d" (ext.slug r.title)) content)
    else
      .ok (.stdout content)
  | none => .ok (.stdout content)

/-- The writes performed by a whole run of `main`: none when the
pipeline (or `write_output` itself) raised, and the single
`write_output` event otherwise. -/
def main_writes (ext : Ext) (args : MainArgs) (reviews : List String) (o : Oracles) :
    List OutputEvent :=
  match (main_run args reviews o).1 with
  | .error _ => []
  | .ok r =>
    match write_output_ev ext r args with
    | .ok ev => [ev]
    | .error _ => []

/-! ## The streaming stage loop `_generate_stream`
(`src/src/recipe_formatter/handlers/openai_handler.py` lines 16-31 and
`llama_handler.py` lines 86-102)

Both handlers run the same loop over the response stream:
`for response in response_stream: try: callback(response); final_obj =
response; except ValidationError: print(...)`, returning `final_obj`
(initialized to `None`).  The stream is embedded as the list of partial
results it yields, the callback as a function returning `Except`: an
error is the `ValidationError` the callback raised. -/

/-- The loop body of `_generate_stream`: first component is `final_obj`,
second the responses delivered to the callback (every response is
delivered, whether or not the callback raised on an earlier one). -/
def generate_stream_aux {α : Type} (cb : α → Except Err Unit) :
    List α → Option α → Option α × List α
  | [], acc => (acc, [])
  | r :: rest, acc =>
    match cb r with
    | .ok _ =>
      ((generate_stream_aux cb rest (some r)).1,
        r :: (generate_stream_aux cb rest (some r)).2)
    | .error _ =>
      ((generate_stream_aux cb rest acc).1,
        r :: (generate_stream_aux cb rest acc).2)

/-- Embeds `_generate_stream` over a stream of partial results: `final_obj`
starts as `None`. -/
def generate_stream {α : Type} (stream : List α) (cb : α → Except Err Unit) :
    Option α × List α :=
  generate_stream_aux cb stream none

lemma generate_stream_aux_delivers {α : Type} (cb : α → Except Err Unit) :
    ∀ (stream : List α) (acc : Option α), (generate_stream_aux cb stream acc).2 = stream := by
  intro stream
  induction stream with
  | nil => intro acc; rfl
  | cons r rest ih =>
    intro acc
    cases h : cb r with
    | ok u => simp [generate_stream_aux, h, ih]
    | error e => simp [generate_stream_aux, h, ih]

lemma generate_stream_aux_last_ok {α : Type} (cb : α → Except Err Unit) :
    ∀ (stream : List α) (acc : Option α) (last : α), stream.getLast? = some last →
      cb last = .ok () → (generate_stream_aux cb stream acc).1 = some last := by
  intro stream
  induction stream with
  | nil => intro acc last h _; simp at h
  | cons r rest ih =>
    intro acc last h hcb
    cases rest with
    | nil =>
      simp at h
      subst h
      simp [generate_stream_aux, hcb]
    | cons r2 rest2 =>
      rw [List.getLast?_cons_cons] at h
      cases hr : cb r with
      | ok u => simpa [generate_stream_aux, hr] using ih (some r) last h hcb
      | error e => simpa [generate_stream_aux, hr] using ih acc last h hcb

lemma generate_stream_aux_sound {α : Type} (cb : α → Except Err Unit) :
    ∀ (stream : List α) (acc : Option α) (x : α),
      (generate_stream_aux cb stream acc).1 = some x →
        (x ∈ stream ∧ cb x = .ok ()) ∨ acc = some x := by
  intro stream
  induction stream with
  | nil => intro acc x h; exact Or.inr h
  | cons r rest ih =>
    intro acc x h
    cases hr : cb r with
    | ok u =>
      simp only [generate_stream_aux, hr] at h
      rcases ih (some r) x h with hin | hacc
      · exact Or.inl ⟨List.mem_cons_of_mem r hin.1, hin.2⟩
      · obtain rfl : r = x := by simpa using hacc
        exact Or.inl ⟨List.mem_cons_self r rest, by cases u; exact hr⟩
    | error e =>
      simp only [generate_stream_aux, hr] at h
      rcases ih acc x h with hin | hacc
      · exact Or.inl ⟨List.mem_cons_of_mem r hin.1, hin.2⟩
      · exact Or.inr hacc

/-- Callback that raises a `ValidationError` exactly on the final
partial result of the two-element stream `[0, 1]`. -/
def cbFailLast : Nat → Except Err Unit :=
  fun n => if n = 1 then .error "ValidationError" else .ok ()

/-- Claim C8 as stated is false on the code: when the caller-supplied
callback raises a `ValidationError` on the final streamed result,
`_generate_stream` returns the previous, intermediate partial (here
`0`), not the final object (`1`) — an intermediate partial is what the
stage then hands back for merging. -/
theorem c8_counterexample :
    (generate_stream [0, 1] cbFailLast).1 = some 0 ∧
      ([0, 1] : List Nat).getLast? = some 1 ∧
      (some 0 : Option Nat) ≠ some 1 := by
  refine ⟨rfl, rfl, by decide⟩

/-- Amended C8: a validation error raised by the callback is caught and
streaming continues — every response of the stream is still delivered
to the callback and the stage never fails; the stage returns the most
recent response on which the callback succeeded (in particular the
final, fully schema-valid object whenever the callback accepts it), and
`None` when the callback accepted none. -/
theorem c8_stream_behavior {α : Type} (stream : List α) (cb : α → Except Err Unit) :
    (generate_stream stream cb).2 = stream ∧
      (∀ last, stream.getLast? = some last → cb last = .ok () →
        (generate_stream stream cb).1 = some last) ∧
      (∀ x, (generate_stream stream cb).1 = some x → x ∈ stream ∧ cb x = .ok ()) := by
  refine ⟨generate_stream_aux_delivers cb stream none, ?_, ?_⟩
  · intro last hlast hcb
    exact generate_stream_aux_last_ok cb stream none last hlast hcb
  · intro x hx
    rcases generate_stream_aux_sound cb stream none x hx with h | h
    · exact h
    · simp at h

/-- Witness for the amended C8 at the concrete stream `[5, 7]` with an
always-accepting callback. -/
theorem c8_stream_behavior_witness :
    (generate_stream [5, 7] (fun _ => (.ok () : Except Err Unit))).2 = [5, 7] ∧
      (generate_stream [5, 7] (fun _ => (.ok () : Except Err Unit))).1 = some 7 := by
  refine ⟨(c8_stream_behavior [5, 7] (fun _ => .ok ())).1, ?_⟩
  exact (c8_stream_behavior [5, 7] (fun _ => .ok ())).2.1 7 rfl rfl

lemma fix_fractions_list_no_slash : ∀ l : List Char, '/' ∉ l → fix_fractions_list l = l
  | [], _ => rfl
  | [_], _ => rfl
  | [_, _], _ => rfl
  | a :: b :: c :: rest, h => by
    have hb : b ≠ '/' := fun hb => h (by simp [hb])
    have hguard : ¬(a.isDigit ∧ b = '/' ∧ c.isDigit) := fun hg => hb hg.2.1
    have h2 : '/' ∉ b :: c :: rest := fun hm => h (List.mem_cons_of_mem a hm)
    rw [fix_fractions_list, if_neg hguard, fix_fractions_list_no_slash (b :: c :: rest) h2]

/-- Claim C6 as stated is false on the code: `fix_fractions`
(`src/main.py` lines 404-405) performs no decimal-to-fraction
conversion at all; the decimals of the claim pass through unchanged
instead of becoming Unicode fractions. -/
theorem c6_counterexample :
    fix_fractions "0.5" = "0.5" ∧ ("0.5" : String) ≠ "1⁄2" ∧
      fix_fractions "1.5" = "1.5" ∧ ("1.5" : String) ≠ "1 1⁄2" ∧
      fix_fractions "2.0" = "2.0" := by
  refine ⟨rfl, by decide, rfl, by decide, rfl⟩

/-- Amended C6: fraction conversion only rewrites ASCII slash
fractions, by a single left-to-right non-overlapping scan: whenever the
scan sits on a digit followed by `/` followed by a digit, the slash
becomes the Unicode fraction slash `⁄` and the scan resumes after the
matched right digit (so `1/2` gives `1⁄2`, the mixed `1 1/2` gives
`1 1⁄2`, while `1/2/3` gives `1⁄2/3`: the second slash is skipped
because its left digit was consumed by the first match); a character
not starting such a match is emitted unchanged and the scan advances
one character, so in particular decimal numbers and slash-free text
pass through verbatim — there is no decimal-to-fraction conversion in
the code. -/
theorem c6_slash_fractions_only :
    fix_fractions "1/2" = "1⁄2" ∧
      fix_fractions "1 1/2" = "1 1⁄2" ∧
      fix_fractions "1/2/3" = "1⁄2/3" ∧
      fix_fractions "0.5" = "0.5" ∧
      fix_fractions "0.333" = "0.333" ∧
      fix_fractions "2.0" = "2.0" ∧
      (∀ (a c : Char) (rest : List Char), a.isDigit → c.isDigit →
        fix_fractions_list (a :: '/' :: c :: rest) =
          a :: '⁄' :: c :: fix_fractions_list rest) ∧
      (∀ (x : Char) (t : List Char),
        (∀ c rest, t = '/' :: c :: rest → ¬(x.isDigit ∧ c.isDigit)) →
        fix_fractions_list (x :: t) = x :: fix_fractions_list t) ∧
      (∀ s : String, '/' ∉ s.toList → fix_fractions s = s) := by
  refine ⟨rfl, rfl, rfl, rfl, rfl, rfl, ?_, ?_, ?_⟩
  · intro a c rest ha hc
    rw [fix_fractions_list, if_pos ⟨ha, rfl, hc⟩]
  · intro x t hno
    match t with
    | [] => rfl
    | [b] => rfl
    | b :: c :: rest =>
      by_cases hb : b = '/'
      · subst hb
        have hnd : ¬(x.isDigit ∧ c.isDigit) := hno c rest rfl
        have hguard : ¬(x.isDigit ∧ ('/' : Char) = '/' ∧ c.isDigit) :=
          fun hg => hnd ⟨hg.1, hg.2.2⟩
        rw [fix_fractions_list, if_neg hguard]
      · have hguard : ¬(x.isDigit ∧ b = '/' ∧ c.isDigit) := fun hg => hb hg.2.1
        rw [fix_fractions_list, if_neg hguard]
  · intro s hs
    show String.mk (fix_fractions_list s.toList) = s
    rw [fix_fractions_list_no_slash s.toList hs]
    cases s
    rfl

/-- Witness for the amended C6: the three universally quantified
conjuncts applied at concrete inputs — a digit-flanked slash at the
scan point is rewritten, a non-matching head character is emitted
unchanged, and a slash-free string passes through whole. -/
theorem c6_slash_fractions_only_witness :
    fix_fractions_list ['1', '/', '2'] = ['1', '⁄', '2'] ∧
      fix_fractions_list ['a', 'b', 'c'] = 'a' :: fix_fractions_list ['b', 'c'] ∧
      fix_fractions "abc" = "abc" :=
  ⟨c6_slash_fractions_only.2.2.2.2.2.2.1 '1' '2' [] (by decide) (by decide),
    c6_slash_fractions_only.2.2.2.2.2.2.2.1 'a' ['b', 'c']
      (fun c rest h => absurd (List.cons.inj h).1 (by decide)),
    c6_slash_fractions_only.2.2.2.2.2.2.2.2 "abc" (by decide)⟩

lemma not_isEmpty_of_ne {s : String} (h : s ≠ "") : (!s.isEmpty) = true := by
  have : ¬(s.isEmpty = true) := fun he => h ((String.isEmpty_iff s).mp he)
  simp [Bool.eq_false_iff.mpr this]

lemma list_not_isEmpty_of_ne {α : Type} {l : List α} (h : l ≠ []) : (!l.isEmpty) = true := by
  cases l with
  | nil => exact absurd rfl h
  | cons a t => rfl

lemma mem_lines_of_mem_preamble {r : Recipe} {x : String} (h : x ∈ latex_preamble r) :
    x ∈ json_to_latex_lines r := by
  simp only [json_to_latex_lines, List.mem_append]
  tauto

lemma mem_lines_of_mem_desc {r : Recipe} {x : String}
    (h : x ∈ (if !r.description.isEmpty then
      ["\\noindent " ++ escape_latex r.description] else [])) :
    x ∈ json_to_latex_lines r := by
  simp only [json_to_latex_lines, List.mem_append]
  tauto

lemma mem_lines_of_mem_ig {r : Recipe} {x : String}
    (h : x ∈ r.ingredient_groups.flatMap ingredient_group_lines) :
    x ∈ json_to_latex_lines r := by
  simp only [json_to_latex_lines, List.mem_append]
  tauto

lemma mem_lines_of_mem_sg {r : Recipe} {x : String}
    (h : x ∈ r.instruction_groups.flatMap instruction_group_lines) :
    x ∈ json_to_latex_lines r := by
  simp only [json_to_latex_lines, List.mem_append]
  tauto

lemma mem_lines_of_mem_notes {r : Recipe} {x : String}
    (h : x ∈ (if !r.notes.isEmpty then
      ["\\section*\x7bNotes\x7d", escape_latex r.notes] else [])) :
    x ∈ json_to_latex_lines r := by
  simp only [json_to_latex_lines, List.mem_append]
  tauto

lemma mem_lines_of_mem_reviews {r : Recipe} {x : String}
    (h : x ∈ (if !r.reviews.isEmpty then
      "\\section*\x7bTips\x7d" :: r.reviews.flatMap (fun v => [escape_latex v, "\\par"])
      else [])) :
    x ∈ json_to_latex_lines r := by
  simp only [json_to_latex_lines, List.mem_append]
  tauto

lemma mem_item_of_mem_ingredients {g : IngredientGroup} {i : String}
    (hi : i ∈ g.ingredients) :
    ("\\item " ++ escape_latex i) ∈ ingredient_group_lines g := by
  unfold ingredient_group_lines
  exact List.mem_append_left _ (List.mem_append_right _ (List.mem_map_of_mem _ hi))

lemma mem_item_of_mem_instructions {g : InstructionGroup} {i : String}
    (hi : i ∈ g.instructions) :
    ("\\item " ++ escape_latex i) ∈ instruction_group_lines g := by
  unfold instruction_group_lines
  exact List.mem_append_left _ (List.mem_append_right _ (List.mem_map_of_mem _ hi))

lemma mem_subsection_of_title_ig {g : IngredientGroup} (h : g.title ≠ "") :
    ("\\subsection*\x7b" ++ escape_latex g.title ++ "\x7d") ∈ ingredient_group_lines g := by
  unfold ingredient_group_lines
  refine List.mem_append_left _ (List.mem_append_left _ (List.mem_append_left _ ?_))
  rw [if_pos (not_isEmpty_of_ne h)]
  exact List.mem_singleton_self _

lemma mem_subsection_of_title_sg {g : InstructionGroup} (h : g.title ≠ "") :
    ("\\subsection*\x7b" ++ escape_latex g.title ++ "\x7d") ∈ instruction_group_lines g := by
  unfold instruction_group_lines
  refine List.mem_append_left _ (List.mem_append_left _ (List.mem_append_left _ ?_))
  rw [if_pos (not_isEmpty_of_ne h)]
  exact List.mem_singleton_self _

/-- Claim C5: in the LaTeX rendering the fixed character-substitution
escaping is applied exactly once to the title, the description, the
notes, every group title, every ingredient and instruction string, and
every review paragraph — each rendered line carries a single
application of `escape_latex` — so `"50% off"` is escaped to
`"50\% off"` once and never twice, and the semantic Unicode characters
fraction slash `⁄`, degree sign `°`, multiplication sign `×` and the
inch quotation mark `"` pass through the escaping verbatim. -/
theorem c5_escape_once (r : Recipe) :
    escape_latex "50% off" = "50\\% off" ∧
      escape_latex "⁄°×\"" = "⁄°×\"" ∧
      escape_char '⁄' = String.singleton '⁄' ∧
      escape_char '°' = String.singleton '°' ∧
      escape_char '×' = String.singleton '×' ∧
      escape_char '\"' = String.singleton '\"' ∧
      ("\x7b\\huge \\bfseries \\headingfont " ++ escape_latex r.title ++ "\x7d")
        ∈ json_to_latex_lines r ∧
      (r.description ≠ "" →
        ("\\noindent " ++ escape_latex r.description) ∈ json_to_latex_lines r) ∧
      (∀ g ∈ r.ingredient_groups,
        (g.title ≠ "" →
          ("\\subsection*\x7b" ++ escape_latex g.title ++ "\x7d") ∈ json_to_latex_lines r) ∧
        ∀ i ∈ g.ingredients, ("\\item " ++ escape_latex i) ∈ json_to_latex_lines r) ∧
      (∀ g ∈ r.instruction_groups,
        (g.title ≠ "" →
          ("\\subsection*\x7b" ++ escape_latex g.title ++ "\x7d") ∈ json_to_latex_lines r) ∧
        ∀ i ∈ g.instructions, ("\\item " ++ escape_latex i) ∈ json_to_latex_lines r) ∧
      (r.notes ≠ "" → escape_latex r.notes ∈ json_to_latex_lines r) ∧
      (∀ v ∈ r.reviews, escape_latex v ∈ json_to_latex_lines r) := by
  refine ⟨rfl, rfl, rfl, rfl, rfl, rfl, ?_, ?_, ?_, ?_, ?_, ?_⟩
  · exact mem_lines_of_mem_preamble (by simp [latex_preamble])
  · intro h
    refine mem_lines_of_mem_desc ?_
    rw [if_pos (not_isEmpty_of_ne h)]
    exact List.mem_singleton_self _
  · intro g hg
    refine ⟨fun h => ?_, fun i hi => ?_⟩
    · exact mem_lines_of_mem_ig
        (List.mem_flatMap.mpr ⟨g, hg, mem_subsection_of_title_ig h⟩)
    · exact mem_lines_of_mem_ig
        (List.mem_flatMap.mpr ⟨g, hg, mem_item_of_mem_ingredients hi⟩)
  · intro g hg
    refine ⟨fun h => ?_, fun i hi => ?_⟩
    · exact mem_lines_of_mem_sg
        (List.mem_flatMap.mpr ⟨g, hg, mem_subsection_of_title_sg h⟩)
    · exact mem_lines_of_mem_sg
        (List.mem_flatMap.mpr ⟨g, hg, mem_item_of_mem_instructions hi⟩)
  · intro h
    refine mem_lines_of_mem_notes ?_
    rw [if_pos (not_isEmpty_of_ne h)]
    simp
  · intro v hv
    have hne : r.reviews ≠ [] := by
      intro h0
      rw [h0] at hv
      exact absurd hv (List.not_mem_nil v)
    refine mem_lines_of_mem_reviews ?_
    rw [if_pos (list_not_isEmpty_of_ne hne)]
    exact List.mem_cons_of_mem _ (List.mem_flatMap.mpr ⟨v, hv, by simp⟩)

/-- Recipe exercising every escaped field of the LaTeX renderer. -/
def fullRecipe : Recipe :=
  { title := "Cake"
    description := "Good & 50% off"
    ingredient_groups := [⟨"For the Cake", ["1⁄2 c oil", "50% sugar"]⟩]
    instruction_groups := [⟨"Making the Cake", ["Bake at 350 °F."]⟩]
    notes := "Use a 9×13\" pan"
    reviews := ["Add 1⁄3 c more sugar"]
    source := "http://example.com/cake"
    scale := 1 }

/-- Witness for C5 at `fullRecipe`, discharging every hypothesis of
`c5_escape_once` on concrete data. -/
theorem c5_escape_once_witness :
    escape_latex "50% off" = "50\\% off" ∧
      ("\\noindent " ++ escape_latex fullRecipe.description) ∈ json_to_latex_lines fullRecipe ∧
      ("\\subsection*\x7b" ++ escape_latex "For the Cake" ++ "\x7d")
        ∈ json_to_latex_lines fullRecipe ∧
      ("\\item " ++ escape_latex "50% sugar") ∈ json_to_latex_lines fullRecipe ∧
      ("\\item " ++ escape_latex "Bake at 350 °F.") ∈ json_to_latex_lines fullRecipe ∧
      escape_latex fullRecipe.notes ∈ json_to_latex_lines fullRecipe ∧
      escape_latex "Add 1⁄3 c more sugar" ∈ json_to_latex_lines fullRecipe :=
  ⟨(c5_escape_once fullRecipe).1,
    (c5_escape_once fullRecipe).2.2.2.2.2.2.2.1 (by decide),
    ((c5_escape_once fullRecipe).2.2.2.2.2.2.2.2.1 ⟨"For the Cake", ["1⁄2 c oil", "50% sugar"]⟩
      (by simp [fullRecipe])).1 (by decide),
    ((c5_escape_once fullRecipe).2.2.2.2.2.2.2.2.1 ⟨"For the Cake", ["1⁄2 c oil", "50% sugar"]⟩
      (by simp [fullRecipe])).2 "50% sugar" (by simp),
    ((c5_escape_once fullRecipe).2.2.2.2.2.2.2.2.2.1 ⟨"Making the Cake", ["Bake at 350 °F."]⟩
      (by simp [fullRecipe])).2 "Bake at 350 °F." (by simp),
    (c5_escape_once fullRecipe).2.2.2.2.2.2.2.2.2.2.1 (by decide),
    (c5_escape_once fullRecipe).2.2.2.2.2.2.2.2.2.2.2 "Add 1⁄3 c more sugar" (by simp [fullRecipe])⟩

lemma main_run_ok_shape (args : MainArgs) (reviews : List String) (o : Oracles)
    (r : Recipe) (h : (main_run args reviews o).1 = .ok r) :
    ∃ r0, (runStages (stepList args reviews o) (.ok emptyRecipe)).1 = .ok r0 ∧
      r = finalize args.url args.scale r0 := by
  unfold main_run at h
  cases h3 : (runStages (stepList args reviews o) (.ok emptyRecipe)).1 with
  | error e =>
    rw [h3] at h
    simp [Except.map] at h
  | ok r0 =>
    rw [h3] at h
    simp only [Except.map] at h
    exact ⟨r0, rfl, (Except.ok.inj h).symm⟩

/-- C1: the retry loop of `run_pipeline_step` makes at most 3 attempts
with a fixed 10-second delay after each failed attempt: an oracle that
fails twice then succeeds yields a successful stage result after
exactly 3 attempts (with 2 inter-attempt delays); an oracle that always
fails (e.g. always times out) re-raises after exactly 3 attempts, never
fewer or more; and at the pipeline level a stage error makes the writes
empty (no partial recipe reaches the output) while the trace of invoked
stages is always an initial segment of the schedule, so every stage
after a fatal one is aborted. -/
theorem c1_retry_policy :
    (∀ (oracle : Nat → Except Err String) (ρ : Type) (parse : String → Except Err ρ)
        (s : String) (j : ρ) (e1 e2 : Err),
      oracle 1 = .error e1 → oracle 2 = .error e2 → oracle 3 = .ok s →
        parse s = .ok j →
        run_pipeline_step oracle parse = some (.ok j, 3, 2)) ∧
      (∀ (oracle : Nat → Except Err String) (ρ : Type) (parse : String → Except Err ρ)
          (errs : Nat → Err),
        (∀ n, oracle n = .error (errs n)) →
          run_pipeline_step oracle parse = some (.error (errs 3), 3, 3)) ∧
      (∀ (args : MainArgs) (reviews : List String) (o : Oracles) (ext : Ext),
        (∀ e, (main_run args reviews o).1 = .error e →
          main_writes ext args reviews o = []) ∧
        (main_run args reviews o).2 <+: schedule args reviews o) := by
  refine ⟨?_, ?_, ?_⟩
  · intro oracle ρ parse s j e1 e2 h1 h2 h3 hp
    unfold run_pipeline_step
    rw [run_step_from_fail_fail_ok oracle s e1 e2 h1 h2 h3]
    simp [Except.bind, hp]
  · intro oracle ρ parse errs h
    unfold run_pipeline_step
    rw [run_step_from_all_fail oracle errs h]
    simp [Except.bind]
  · intro args reviews o ext
    constructor
    · intro e he
      simp [main_writes, he]
    · exact runStages_trace_prefix (stepList args reviews o) (.ok emptyRecipe)

/-- Externals for the write step: identity-like stand-ins. -/
def extId : Ext :=
  { jsonDump := fun _ => "json-dump", pdfBytes := fun s => s, slug := fun t => t }

/-- Arguments of a plain run writing LaTeX to `out.tex` with no
optional stage enabled. -/
def argsTex : MainArgs :=
  { url := "http://example.com/r", output := some "out.tex", format := some "tex"
    normalize := false, tips := false, group := false, scale := 1, revise := none }

/-- Pipeline recipe with singleton, titled groups. -/
def pipeRecipe : Recipe :=
  { title := "Pie", description := ""
    ingredient_groups := [⟨"Filling", ["2 c sugar"]⟩]
    instruction_groups := [⟨"Baking", ["Mix."]⟩]
    notes := "", reviews := [], source := "", scale := 1 }

/-- Oracles for a run whose every stage succeeds. -/
def okOracles : Oracles :=
  { toJson := .ok pipeRecipe
    updIngredients := fun r => .ok r.ingredient_groups
    updInstructions := fun r => .ok r.instruction_groups
    groupStep := fun r => .ok r
    titleNotes := fun r => .ok r
    scaleStep := fun r => .ok r
    reviewsStep := fun _ => .ok []
    reviseStep := fun r => .ok r
    finalStep := fun r => .ok r }

/-- Oracles for a run whose every stage raises. -/
def failOracles : Oracles :=
  { toJson := .error "boom"
    updIngredients := fun _ => .error "boom"
    updInstructions := fun _ => .error "boom"
    groupStep := fun _ => .error "boom"
    titleNotes := fun _ => .error "boom"
    scaleStep := fun _ => .error "boom"
    reviewsStep := fun _ => .error "boom"
    reviseStep := fun _ => .error "boom"
    finalStep := fun _ => .error "boom" }

/-- Stage oracle failing on attempts 1 and 2 and succeeding on 3. -/
def oracleFFS : Nat → Except Err String :=
  fun n => if n = 3 then .ok "ok-content" else .error "timeout"

/-- Stage oracle that times out on every attempt. -/
def oracleAF : Nat → Except Err String :=
  fun _ => .error "timeout"

/-- Parse stub accepting any content. -/
def parseConst : String → Except Err Recipe :=
  fun _ => .ok pipeRecipe

/-- Error trace of `oracleAF`. -/
def errsConst : Nat → Err :=
  fun _ => "timeout"

/-- Witness for C1: the retry outcomes at the two stub oracles, and the
absence of writes for the failing pipeline run. -/
theorem c1_retry_policy_witness :
    run_pipeline_step oracleFFS parseConst = some (.ok pipeRecipe, 3, 2) ∧
      run_pipeline_step oracleAF parseConst = some (.error "timeout", 3, 3) ∧
      main_writes extId argsTex [] failOracles = [] :=
  ⟨c1_retry_policy.1 oracleFFS Recipe parseConst "ok-content" pipeRecipe
      "timeout" "timeout" rfl rfl rfl rfl,
    c1_retry_policy.2.1 oracleAF Recipe parseConst errsConst (fun _ => rfl),
    (c1_retry_policy.2.2 argsTex [] failOracles extId).1 "boom" rfl⟩

lemma clear_singleton_title_ig_title (gs : List IngredientGroup) (g : IngredientGroup)
    (h : clear_singleton_title_ig gs = [g]) : g.title = "" := by
  match gs with
  | [] =>
    have h2 : ([] : List IngredientGroup) = [g] := h
    simp at h2
  | [x] =>
    have h1 : [{ x with title := "" }] = [g] := h
    have h2 : ({ x with title := "" } : IngredientGroup) = g := by
      exact (List.cons.inj h1).1
    rw [← h2]
  | x :: y :: t =>
    have h2 : x :: y :: t = [g] := h
    simp at h2

lemma clear_singleton_title_sg_title (gs : List InstructionGroup) (g : InstructionGroup)
    (h : clear_singleton_title_sg gs = [g]) : g.title = "" := by
  match gs with
  | [] =>
    have h2 : ([] : List InstructionGroup) = [g] := h
    simp at h2
  | [x] =>
    have h1 : [{ x with title := "" }] = [g] := h
    have h2 : ({ x with title := "" } : InstructionGroup) = g := by
      exact (List.cons.inj h1).1
    rw [← h2]
  | x :: y :: t =>
    have h2 : x :: y :: t = [g] := h
    simp at h2

/-- C3: every recipe that completes processing (a successful `main`
run, whose result passes through the finalization of lines 739-746)
has an empty title on its ingredient group whenever exactly one
ingredient group is present, and likewise for instruction groups. -/
theorem c3_singleton_group_title_cleared (args : MainArgs) (reviews : List String)
    (o : Oracles) (r : Recipe) (h : (main_run args reviews o).1 = .ok r) :
    (∀ g, r.ingredient_groups = [g] → g.title = "") ∧
      (∀ g, r.instruction_groups = [g] → g.title = "") := by
  obtain ⟨r0, _, rfl⟩ := main_run_ok_shape args reviews o r h
  exact ⟨fun g hg => clear_singleton_title_ig_title r0.ingredient_groups g hg,
    fun g hg => clear_singleton_title_sg_title r0.instruction_groups g hg⟩

/-- The finalized recipe of the all-success run. -/
def pipeRecipeFinal : Recipe := finalize argsTex.url argsTex.scale pipeRecipe

/-- Witness for C3: the all-success run ends with singleton groups and
their titles are cleared. -/
theorem c3_singleton_group_title_cleared_witness :
    (⟨"", ["2 c sugar"]⟩ : IngredientGroup).title = "" ∧
      (⟨"", ["Mix."]⟩ : InstructionGroup).title = "" :=
  ⟨(c3_singleton_group_title_cleared argsTex [] okOracles pipeRecipeFinal rfl).1
      ⟨"", ["2 c sugar"]⟩ rfl,
    (c3_singleton_group_title_cleared argsTex [] okOracles pipeRecipeFinal rfl).2
      ⟨"", ["Mix."]⟩ rfl⟩

/-- C7: for every run, a fatal stage error (which is also how an
interrupt surfaces: any exception propagates the same way) leaves the
writes empty — no output file at all; the write list never holds more
than one event; and a write happens only when the pipeline result is
`ok`, in which case every scheduled stage ran, the written recipe is
the finalized (normalized) one, and the single event is exactly the one
`write_output` produces (with none produced when `write_output` itself
raises). -/
theorem c7_single_write_after_success (ext : Ext) (args : MainArgs)
    (reviews : List String) (o : Oracles) :
    (∀ e, (main_run args reviews o).1 = .error e → main_writes ext args reviews o = []) ∧
      (main_writes ext args reviews o).length ≤ 1 ∧
      (∀ r, (main_run args reviews o).1 = .ok r →
        (main_run args reviews o).2 = schedule args reviews o ∧
        (∃ r0, r = finalize args.url args.scale r0) ∧
        (∀ ev, write_output_ev ext r args = .ok ev →
          main_writes ext args reviews o = [ev]) ∧
        (∀ e, write_output_ev ext r args = .error e →
          main_writes ext args reviews o = [])) := by
  refine ⟨?_, ?_, ?_⟩
  · intro e he
    simp [main_writes, he]
  · unfold main_writes
    rcases hm : (main_run args reviews o).1 with e | r
    · simp
    · rcases hw : write_output_ev ext r args with e | ev <;> simp [hw]
  · intro r hr
    obtain ⟨r0, h3, hshape⟩ := main_run_ok_shape args reviews o r hr
    refine ⟨?_, ⟨r0, hshape⟩, ?_, ?_⟩
    · show (runStages (stepList args reviews o) (.ok emptyRecipe)).2 = _
      exact runStages_ok_trace (stepList args reviews o) (.ok emptyRecipe) r0 h3
    · intro ev hev
      simp [main_writes, hr, hev]
    · intro e hev
      simp [main_writes, hr, hev]

/-- The single write event of the all-success LaTeX run. -/
def evTex : OutputEvent := .file "out.tex" (json_to_latex pipeRecipeFinal)

/-- Witness for C7: the all-success run writes exactly its one event,
and the all-fail run writes nothing. -/
theorem c7_single_write_after_success_witness :
    main_writes extId argsTex [] okOracles = [evTex] ∧
      main_writes extId argsTex [] failOracles = [] :=
  ⟨((c7_single_write_after_success extId argsTex [] okOracles).2.2 pipeRecipeFinal
      rfl).2.2.1 evTex rfl,
    (c7_single_write_after_success extId argsTex [] failOracles).1 "boom" rfl⟩

/-- C9 (code bug): the packaged entry point
(`src/src/recipe_formatter/main.py` lines 216-222) resolves the output
format by the claimed precedence — an explicit flag always wins, else
the format is inferred from the output path's extension (rejecting
unsupported ones), else JSON is the default — but the legacy script's
`write_output` (`src/main.py` lines 620-622), invoked with neither a
format flag nor an output path, evaluates `os.path.splitext(None)` and
raises a `TypeError` instead of defaulting to JSON. -/
theorem c9_format_resolution :
    (∀ (f : String) (p : Option String), resolve_format_rf (some f) p = some f) ∧
      resolve_format_rf none (some "out.tex") = some "tex" ∧
      resolve_format_rf none (some "out.xyz") = none ∧
      resolve_format_rf none none = some "json" ∧
      resolve_format_legacy (some "md") none = .ok "md" ∧
      resolve_format_legacy none (some "out.tex") = .ok "tex" ∧
      resolve_format_legacy none none =
        .error "TypeError: expected str, bytes or os.PathLike object, not NoneType" := by
  refine ⟨?_, rfl, rfl, rfl, rfl, rfl, rfl⟩
  intro f p
  cases p <;> rfl

/-- C10: whatever recipe values the external-service stages return, a
successful run's recipe carries the command-line URL in `source` and
the `--scale` value in `scale`: both are assigned by `main` after the
last stage (lines 745-746), overwriting anything a stage produced. -/
theorem c10_source_scale_from_cli (args : MainArgs) (reviews : List String)
    (o : Oracles) (r : Recipe) (h : (main_run args reviews o).1 = .ok r) :
    r.source = args.url ∧ r.scale = args.scale := by
  obtain ⟨r0, _, rfl⟩ := main_run_ok_shape args reviews o r h
  exact ⟨rfl, rfl⟩

/-- Witness for C10 at the all-success run: the finalized recipe's
`source` and `scale` equal the CLI arguments. -/
theorem c10_source_scale_from_cli_witness :
    pipeRecipeFinal.source = argsTex.url ∧ pipeRecipeFinal.scale = argsTex.scale :=
  c10_source_scale_from_cli argsTex [] okOracles pipeRecipeFinal rfl

end RecipeFormatter
